import Mathlib

/-!
Verification of the conversational-analytics core of the Investment Chat Agent
repository (agent_api, analytics_api, formula_api services).

The development shallowly embeds the Python sources:
* `agent_api/app/main.py` — date normalization (`validate_date`), completeness
  checking (`check_completeness`), response composition (`generate_response`)
  and the `/chat` endpoint pipeline (`chat`);
* `analytics_api/app/main.py` — the `/analytics` endpoint (`compute_analytics`)
  and the metric formulas;
* `formula_api/app/services/formulas.py` and `formula_api/app/routes.py` — the
  standalone formula service.

External collaborators (the language-model oracle, the Supabase-backed entity
catalogs, the HTTP metric backend, and `difflib`-based fuzzy matching) are
modelled as explicit parameters, exactly as the spec treats them (black-box
dependencies).  Machine floats are idealized as real numbers; Python `datetime`
parsing/formatting is embedded at the character level following CPython's
`_strptime` patterns (`%Y` exactly four digits, `%m`/`%d` one or two digits)
and glibc `strftime` output (`%Y` unpadded decimal, `%m`/`%d` zero-padded).
-/

namespace InvestAgent

/-- Gregorian leap-year test (as realized by Python `datetime` arithmetic). -/
def leapYear (y : Nat) : Bool :=
  (y % 4 == 0 && y % 100 != 0) || y % 400 == 0

/-- Number of days in month `m` of year `y` (Python `datetime` calendar). -/
def daysInMonth (y m : Nat) : Nat :=
  if m = 2 then (if leapYear y then 29 else 28)
  else if m = 4 ∨ m = 6 ∨ m = 9 ∨ m = 11 then 30
  else 31

/-- The ASCII digit character for a value `0 ≤ n ≤ 9`. -/
def digitChar (n : Nat) : Char := Char.ofNat (48 + n)

/-- Fuel-driven helper for `natDigits` (structural recursion so that the
kernel can evaluate it). -/
def natDigitsAux : Nat → Nat → List Char
  | 0, _ => []
  | fuel + 1, n =>
    if n < 10 then [digitChar n]
    else natDigitsAux fuel (n / 10) ++ [digitChar (n % 10)]

/-- Decimal digit characters of `n`, most significant first (no padding),
as produced by C `printf`-style decimal formatting. -/
def natDigits (n : Nat) : List Char := natDigitsAux (n + 1) n

/-- Value of a list of ASCII digit characters read in base 10
(Python `int()` applied to the matched digit group). -/
def digitsVal (cs : List Char) : Nat :=
  cs.foldl (fun a c => a * 10 + (c.toNat - 48)) 0

/-- ASCII digit test (the `\d` character class restricted to ASCII, as the
date strings at hand are ASCII). -/
def isDigitChar (c : Char) : Bool := 48 ≤ c.toNat && c.toNat ≤ 57

/-- All characters are ASCII digits. -/
def allDigits (cs : List Char) : Bool := cs.all isDigitChar

/-- Split a character list on the `'-'` separator (the shape of the
`%Y-%m-%d` pattern match in CPython `_strptime`). -/
def splitDash : List Char → List (List Char)
  | [] => [[]]
  | c :: rest =>
    if c = '-' then [] :: splitDash rest
    else
      match splitDash rest with
      | [] => [[c]]
      | g :: gs => (c :: g) :: gs

/-- Embedding of `datetime.strptime(date_str, "%Y-%m-%d")` followed by
`datetime` field validation: CPython's `_strptime` matches `%Y` as exactly
four digits and `%m`, `%d` as one or two digits; `datetime` then requires
`1 ≤ year`, `1 ≤ month ≤ 12` and `1 ≤ day ≤ daysInMonth`.  Returns the
parsed `(year, month, day)` or `none` (the `ValueError` path). -/
def parseYMD (s : String) : Option (Nat × Nat × Nat) :=
  match splitDash s.data with
  | [ys, ms, ds] =>
    if ys.length = 4 ∧ allDigits ys ∧
       1 ≤ ms.length ∧ ms.length ≤ 2 ∧ allDigits ms ∧
       1 ≤ ds.length ∧ ds.length ≤ 2 ∧ allDigits ds then
      if 1 ≤ digitsVal ys ∧ 1 ≤ digitsVal ms ∧ digitsVal ms ≤ 12 ∧
         1 ≤ digitsVal ds ∧ digitsVal ds ≤ daysInMonth (digitsVal ys) (digitsVal ms) then
        some (digitsVal ys, digitsVal ms, digitsVal ds)
      else none
    else none
  | _ => none

/-- Successor day in the proleptic Gregorian calendar (one step of
`timedelta(days=1)` addition). -/
def nextDay : Nat × Nat × Nat → Nat × Nat × Nat
  | (y, m, d) =>
    if d < daysInMonth y m then (y, m, d + 1)
    else if m < 12 then (y, m + 1, 1)
    else (y + 1, 1, 1)

/-- Add `k` days to a date (`date + timedelta(days=k)`). -/
def addDays (x : Nat × Nat × Nat) : Nat → Nat × Nat × Nat
  | 0 => x
  | k + 1 => addDays (nextDay x) k

/-- Predecessor day in the proleptic Gregorian calendar. -/
def prevDay : Nat × Nat × Nat → Nat × Nat × Nat
  | (y, m, d) =>
    if 1 < d then (y, m, d - 1)
    else if 1 < m then (y, m - 1, daysInMonth y (m - 1))
    else (y - 1, 12, 31)

/-- Subtract `k` days from a date (`date - timedelta(days=k)`). -/
def subDays (x : Nat × Nat × Nat) : Nat → Nat × Nat × Nat
  | 0 => x
  | k + 1 => subDays (prevDay x) k

/-- Two-digit zero-padded decimal (glibc `strftime` `%m` / `%d`). -/
def pad2 (n : Nat) : List Char :=
  if n < 10 then '0' :: natDigits n else natDigits n

/-- Embedding of `end_of_month.strftime("%Y-%m-%d")` on Linux/glibc:
`%Y` prints the year as an unpadded decimal number, `%m` and `%d`
zero-pad to two digits. -/
def fmtDate : Nat × Nat × Nat → String
  | (y, m, d) => ⟨natDigits y ++ '-' :: pad2 m ++ '-' :: pad2 d⟩

/-- Embedding of `validate_date` from `agent_api/app/main.py`: parse the
string with `strptime "%Y-%m-%d"`; jump to day 28, add four days (landing
in the following month), subtract that landing day-of-month (landing on the
last day of the original month); if the parsed date differs from that
end-of-month date return the formatted end-of-month date, otherwise return
the original string; on a parse failure return `none`. -/
def validate_date (date_str : String) : Option String :=
  match parseYMD date_str with
  | none => none
  | some (y, m, d) =>
    let next_month := addDays (y, m, 28) 4
    let end_of_month := subDays next_month next_month.2.2
    if (y, m, d) ≠ end_of_month then some (fmtDate end_of_month)
    else some date_str

instance {ε α : Type} [DecidableEq ε] [DecidableEq α] :
    DecidableEq (Except ε α) := fun x y =>
  match x, y with
  | .ok a, .ok b =>
    if h : a = b then isTrue (h ▸ rfl)
    else isFalse (fun hh => h (Except.ok.inj hh))
  | .error e, .error f =>
    if h : e = f then isTrue (h ▸ rfl)
    else isFalse (fun hh => h (Except.error.inj hh))
  | .ok _, .error _ => isFalse (fun hh => Except.noConfusion hh)
  | .error _, .ok _ => isFalse (fun hh => Except.noConfusion hh)

/-- A JSON field value that distinguishes a missing key from an explicit
`null` (Python `dict.get(k, default)` treats the two differently). -/
inductive JField (α : Type) where
  | absent
  | null
  | val (a : α)
deriving DecidableEq

/-- The parameter record extracted by the language oracle
(`parse_with_llm`): the five string-valued keys behave identically under
`params.get(...)` whether the key is missing or null, so they are modelled
as `Option String`; the `metrics` key is read with `params.get("metrics", [])`,
whose behaviour differs between a missing key and an explicit null, so it
keeps the three-valued representation. -/
structure ParameterRecord where
  portfolio_name : Option String
  benchmark_name : Option String
  risk_free_portfolio_name : Option String
  start_date : Option String
  end_date : Option String
  metrics : JField (List String)
deriving DecidableEq

/-- Python truthiness of an optional string (`None` and `""` are falsy). -/
def pyTruthy : Option String → Bool
  | none => false
  | some s => !(s == "")

/-- Embedding of the `METRICS_REQUIREMENTS` dictionary read through
`.get(metric, [])`: required parameter names per metric, empty for an
unknown metric. -/
def METRICS_REQUIREMENTS (metric : String) : List String :=
  if metric = "volatility" then ["portfolio_name", "start_date", "end_date"]
  else if metric = "beta" then
    ["portfolio_name", "benchmark_name", "start_date", "end_date"]
  else if metric = "sharpe_ratio" then
    ["portfolio_name", "risk_free_portfolio_name", "start_date", "end_date"]
  else if metric = "tracking_error" then
    ["portfolio_name", "benchmark_name", "start_date", "end_date"]
  else if metric = "information_ratio" then
    ["portfolio_name", "benchmark_name", "start_date", "end_date"]
  else []

/-- `params.get(r)` for the five string-valued parameter names. -/
def getParam (p : ParameterRecord) (r : String) : Option String :=
  if r = "portfolio_name" then p.portfolio_name
  else if r = "benchmark_name" then p.benchmark_name
  else if r = "risk_free_portfolio_name" then p.risk_free_portfolio_name
  else if r = "start_date" then p.start_date
  else if r = "end_date" then p.end_date
  else none

/-- Body of `check_completeness` once the metric list has been obtained:
collect, per requested metric, the required parameters that are falsy,
deduplicate (`list(set(missing))`, modelled keeping first occurrences),
and append `"metrics"` when the metric list itself is empty. -/
def checkWith (params : ParameterRecord) (metrics : List String) : List String :=
  let missing := metrics.foldl
    (fun acc metric =>
      acc ++ (METRICS_REQUIREMENTS metric).filter
        (fun r => !pyTruthy (getParam params r))) []
  let missing := missing.eraseDups
  if metrics.isEmpty then missing ++ ["metrics"] else missing

/-- Embedding of `check_completeness` from `agent_api/app/main.py`.
`metrics = params.get("metrics", [])` yields `[]` for a missing key but
`None` for an explicit null, and the subsequent `for metric in metrics`
then raises `TypeError` — modelled by the `Except` error case. -/
def check_completeness (params : ParameterRecord) : Except String (List String) :=
  match params.metrics with
  | .null => .error "TypeError: NoneType object is not iterable"
  | .absent => .ok (checkWith params [])
  | .val metrics => .ok (checkWith params metrics)

/-- One catalog check from the `/chat` endpoint: a name field that is
truthy but not present verbatim in its catalog is appended to `missing`. -/
def nameUnresolved (v : Option String) (catalog : List String) : Bool :=
  match v with
  | none => false
  | some s => !(s == "") && !(catalog.contains s)

/-- The missing-field list as computed by the `/chat` endpoint:
`check_completeness` followed by the three catalog checks
(lines 234-246 of `agent_api/app/main.py`). -/
def chatMissing (params : ParameterRecord) (portfolios benchmarks : List String) :
    Except String (List String) :=
  (check_completeness params).map (fun missing =>
    let missing := if nameUnresolved params.portfolio_name portfolios
      then missing ++ ["portfolio_name"] else missing
    let missing := if nameUnresolved params.benchmark_name benchmarks
      then missing ++ ["benchmark_name"] else missing
    let missing := if nameUnresolved params.risk_free_portfolio_name portfolios
      then missing ++ ["risk_free_portfolio_name"] else missing
    missing)

/-- Replace underscores by spaces (`key.replace('_', ' ')`). -/
def replaceUnderscores (s : String) : String :=
  ⟨s.data.map (fun c => if c = '_' then ' ' else c)⟩

/-- Python `str.capitalize()`: first character uppercased, all remaining
characters lowercased. -/
def pyCapitalize (s : String) : String :=
  match s.data with
  | [] => ""
  | c :: rest => ⟨c.toUpper :: rest.map Char.toLower⟩

/-- Helper for `pyTitle`: the Boolean records whether the previous
character was alphabetic. -/
def pyTitleAux : Bool → List Char → List Char
  | _, [] => []
  | prevAlpha, c :: rest =>
    (if c.isAlpha then (if prevAlpha then c.toLower else c.toUpper) else c)
      :: pyTitleAux c.isAlpha rest

/-- Python `str.title()`: the first character of every alphabetic run is
uppercased and the rest of the run lowercased. -/
def pyTitle (s : String) : String := ⟨pyTitleAux false s.data⟩

/-- Fuzzy-suggestion sentence of the clarification branch: either the
`"Did you mean one of these …?"` list or the full catalog. -/
def suggestOr (label : String) (suggestions : List String)
    (catalogLabel : String) (catalog : List String) : String :=
  if suggestions.isEmpty then
    "Available " ++ catalogLabel ++ ": " ++ String.intercalate ", " catalog ++ ". "
  else
    "Did you mean one of these " ++ label ++ ": " ++
      String.intercalate ", " suggestions ++ "? "

/-- The clarification text of `generate_response` when `missing` is
non-empty: missing names rendered via underscore-to-space plus
`str.title()`, then per-name-field fuzzy suggestions. -/
def clarification (params : ParameterRecord) (missing : List String)
    (portfolios benchmarks : List String)
    (fuzzy_match : String → List String → List String) : String :=
  let missing_pcase := missing.map (fun m => pyTitle (replaceUnderscores m))
  let response := "I need the following information to compute: " ++
    String.intercalate ", " missing_pcase ++ ". "
  let response := response ++
    (if missing.contains "portfolio_name" && pyTruthy params.portfolio_name then
      suggestOr "portfolios" (fuzzy_match (params.portfolio_name.getD "") portfolios)
        "portfolios" portfolios
    else "")
  let response := response ++
    (if missing.contains "benchmark_name" && pyTruthy params.benchmark_name then
      suggestOr "benchmarks" (fuzzy_match (params.benchmark_name.getD "") benchmarks)
        "benchmarks" benchmarks
    else "")
  let response := response ++
    (if missing.contains "risk_free_portfolio_name" &&
        pyTruthy params.risk_free_portfolio_name then
      suggestOr "risk-free portfolios"
        (fuzzy_match (params.risk_free_portfolio_name.getD "") portfolios)
        "portfolios" portfolios
    else "")
  response

/-- Query parameters sent to the analytics backend by `requests.get`. -/
structure QueryParams where
  portfolio_name : Option String
  benchmark_name : Option String
  risk_free_portfolio_name : Option String
  start_date : Option String
  end_date : Option String
  metrics : Option (List String)
deriving DecidableEq

/-- A JSON scalar appearing as a metric value in the backend's response. -/
inductive JsonVal where
  | num (q : ℚ)
  | str (s : String)
deriving DecidableEq

/-- The JSON body returned by the analytics backend on success:
`{portfolio, benchmark, results}`. -/
structure AnalyticsJson where
  portfolio : Option String
  benchmark : Option String
  results : List (String × JsonVal)
deriving DecidableEq

/-- An HTTP response of the analytics backend as observed by the agent
(`resp.status_code`, `resp.json()`, `resp.text`). -/
structure BackendResp where
  status_code : Nat
  json : AnalyticsJson
  text : String
deriving DecidableEq

/-- The in-place date normalization at the start of the computation branch:
each truthy date field is overwritten with `validate_date` of its value
(which may be `None`); falsy fields are left alone. -/
def normalizeDates (params : ParameterRecord) : ParameterRecord :=
  let p := if pyTruthy params.start_date then
    { params with start_date := validate_date (params.start_date.getD "") }
  else params
  if pyTruthy p.end_date then
    { p with end_date := validate_date (p.end_date.getD "") }
  else p

/-- `value if truthy else None`, as used for each query parameter. -/
def truthyOrNone (v : Option String) : Option String :=
  if pyTruthy v then v else none

/-- The `query_params` dictionary built in `generate_response`. -/
def buildQuery (params : ParameterRecord) : QueryParams :=
  { portfolio_name := truthyOrNone params.portfolio_name
    benchmark_name := truthyOrNone params.benchmark_name
    risk_free_portfolio_name := truthyOrNone params.risk_free_portfolio_name
    start_date := truthyOrNone params.start_date
    end_date := truthyOrNone params.end_date
    metrics := match params.metrics with
      | .val l => if l.isEmpty then none else some l
      | _ => none }

/-- Rendering of the Python f-string
`f"Computed analytics for {params['portfolio_name']}: {results}"`.
The dict repr of `results` is abstracted by a fixed marker: the `/chat`
endpoint overwrites this text with the formatted metric sentences whenever
`results` is truthy, so no observable behaviour depends on it. -/
def successText (params : ParameterRecord) : String :=
  "Computed analytics for " ++
    (match params.portfolio_name with | some s => s | none => "None") ++
    ": <results dict repr>"

/-- Embedding of `generate_response` from `agent_api/app/main.py`.
The `difflib.get_close_matches`-based fuzzy matcher and the HTTP analytics
backend are external collaborators, passed as function parameters. -/
def generate_response (params : ParameterRecord) (missing : List String)
    (portfolios benchmarks : List String)
    (fuzzy_match : String → List String → List String)
    (backend : QueryParams → BackendResp) :
    String × Option AnalyticsJson × Bool :=
  if missing.isEmpty then
    let params := normalizeDates params
    let resp := backend (buildQuery params)
    if resp.status_code = 200 then
      (successText params, some resp.json, true)
    else
      ("Error computing analytics: " ++ resp.text, none, false)
  else
    (clarification params missing portfolios benchmarks fuzzy_match, none, false)

/-- The `/chat` endpoint's response model (`ChatResponse`). -/
structure ChatResponse where
  response : String
  parameters : Option ParameterRecord
  results : Option AnalyticsJson
  reset_history : Bool
deriving DecidableEq

/-- An HTTP error as seen by the endpoint's caller. -/
structure HttpError where
  status_code : Nat
  detail : String
deriving DecidableEq

/-- Fixed-point formatting with six decimals (`f"{value:.6f}"`), on the
rational idealization of the float value: `|q| * 10^6` rounded to the
nearest integer (computed on numerator and denominator so that the kernel
can evaluate it), rendered with a sign, an integer part and a six-digit
zero-padded fractional part. -/
def fixed6 (q : ℚ) : String :=
  let a := q.num.natAbs * 1000000
  let n := (2 * a + q.den) / (2 * q.den)
  let frac := natDigits (n % 1000000)
  (if q.num < 0 then "-" else "") ++ (⟨natDigits (n / 1000000)⟩ : String) ++ "." ++
    ⟨List.replicate (6 - frac.length) '0' ++ frac⟩

/-- One formatted phrase of the `/chat` result rendering: numeric values
via `str.capitalize()` of the underscore-to-space key and `:.6f`
formatting, other values rendered as-is. -/
def formatMetricPhrase : String × JsonVal → String
  | (key, .num v) => pyCapitalize (replaceUnderscores key) ++ " is " ++ fixed6 v
  | (key, .str s) => pyCapitalize (replaceUnderscores key) ++ " is " ++ s

/-- Embedding of the `/chat` endpoint (`chat` in `agent_api/app/main.py`):
missing-field computation (including the catalog checks), response
composition, masking of the reset flag, and result formatting.  The
`TypeError` raised on an explicit `metrics: null` escapes the endpoint
unhandled, which Starlette converts to a plain 500 response. -/
def chat (params : ParameterRecord) (portfolios benchmarks : List String)
    (fuzzy_match : String → List String → List String)
    (backend : QueryParams → BackendResp) : Except HttpError ChatResponse :=
  match chatMissing params portfolios benchmarks with
  | .error _ => .error ⟨500, "Internal Server Error"⟩
  | .ok missing =>
    let r := generate_response params missing portfolios benchmarks fuzzy_match backend
    let reset_history := if r.2.2 then false else r.2.2
    let response_text := match r.2.1 with
      | some res => String.intercalate "; "
          (res.results.foldl (fun acc kv => acc ++ [formatMetricPhrase kv]) [])
      | none => r.1
    .ok { response := response_text
          parameters := if missing.isEmpty then none else some params
          results := r.2.1
          reset_history := reset_history }

/-- The fallback portfolio catalog from `agent_api/app/main.py`. -/
def FALLBACK_PORTFOLIOS : List String :=
  ["Growth Plus", "Global Dividend", "Secure Income", "Global Macro Opportunities"]

/-- The fallback benchmark catalog from `agent_api/app/main.py`. -/
def FALLBACK_BENCHMARKS : List String :=
  ["Secure Income Benchmark", "MSCI World", "S&P 500"]

/-- `np.mean` on the real idealization (`sum / length`; the empty list,
`nan` in numpy, is idealized as `0/0 = 0`; no claim touches it). -/
noncomputable def npMean (l : List ℝ) : ℝ := l.sum / l.length

/-- Element-wise subtraction of two 1-D numpy arrays, including numpy's
broadcasting rule: equal lengths subtract pointwise; a length-one operand
is broadcast against the other; any other length mismatch raises
`ValueError`. -/
def npBroadcastSub (xs ys : List ℝ) : Except String (List ℝ) :=
  if xs.length = ys.length then .ok (List.zipWith (fun a b => a - b) xs ys)
  else if ys.length = 1 then .ok (xs.map (fun a => a - ys.headD 0))
  else if xs.length = 1 then .ok (ys.map (fun b => xs.headD 0 - b))
  else .error "operands could not be broadcast together"

/-- Embedding of `volatility` (identical in
`formula_api/app/services/formulas.py` and `analytics_api/app/main.py`):
`np.sqrt(np.sum((returns - np.mean(returns))**2) / (len(returns) - 1))`. -/
noncomputable def volatility (returns : List ℝ) : ℝ :=
  Real.sqrt ((returns.map (fun r => (r - npMean returns) ^ 2)).sum /
    ((returns.length : ℝ) - 1))

/-- One off-diagonal / diagonal entry of `np.cov` (sample covariance,
`ddof = 1`); `np.cov` raises `ValueError` on mismatched lengths, checked in
`beta` below. -/
noncomputable def npCovEntry (x y : List ℝ) : ℝ :=
  (List.zipWith (fun a b => (a - npMean x) * (b - npMean y)) x y).sum /
    ((x.length : ℝ) - 1)

/-- Embedding of `beta`: `np.cov(p, b)[0, 1] / np.cov(p, b)[1, 1]`;
stacking arrays of different lengths raises `ValueError`. -/
noncomputable def beta (portfolio_returns benchmark_returns : List ℝ) :
    Except String ℝ :=
  if portfolio_returns.length = benchmark_returns.length then
    .ok (npCovEntry portfolio_returns benchmark_returns /
      npCovEntry benchmark_returns benchmark_returns)
  else .error "all the input array dimensions must match exactly"

/-- Embedding of `sharpe_ratio`: mean excess return over volatility. -/
noncomputable def sharpe_ratio (returns : List ℝ) (risk_free_return : ℝ) : ℝ :=
  npMean (returns.map (fun r => r - risk_free_return)) / volatility returns

/-- Embedding of `tracking_error`:
`diff = p - b` (numpy subtraction, may raise), then
`np.sqrt(np.sum((diff - np.mean(diff))**2) / (len(diff) - 1))`. -/
noncomputable def tracking_error (portfolio_returns benchmark_returns : List ℝ) :
    Except String ℝ := do
  let diff ← npBroadcastSub portfolio_returns benchmark_returns
  pure (Real.sqrt ((diff.map (fun d => (d - npMean diff) ^ 2)).sum /
    ((diff.length : ℝ) - 1)))

/-- Embedding of `information_ratio`: mean active return over tracking
error; the active-return subtraction is evaluated first, then
`tracking_error` recomputes the same subtraction. -/
noncomputable def information_ratio (portfolio_returns benchmark_returns : List ℝ) :
    Except String ℝ := do
  let active ← npBroadcastSub portfolio_returns benchmark_returns
  let te ← tracking_error portfolio_returns benchmark_returns
  pure (npMean active / te)

/-- An exception inside the `/analytics` handler: either an
`HTTPException` raised deliberately or a `ValueError` from numpy. -/
inductive PyExc where
  | http (status_code : Nat) (detail : String)
  | valueError (msg : String)
deriving DecidableEq

/-- Python `str(e)` of such an exception (Starlette `HTTPException.__str__`
is `f"{status_code}: {detail}"`). -/
def pyExcStr : PyExc → String
  | .http c d => toString c ++ ": " ++ d
  | .valueError m => m

/-- One iteration of the metric loop of `compute_analytics`: dispatch on
the metric name; an unknown identifier raises `HTTPException(400)`. -/
noncomputable def analyticsMetricValue (metric : String)
    (portfolio_returns benchmark_returns : List ℝ) (risk_free_rate : ℝ) :
    Except PyExc ℝ :=
  if metric = "volatility" then .ok (volatility portfolio_returns)
  else if metric = "beta" then
    (beta portfolio_returns benchmark_returns).mapError .valueError
  else if metric = "sharpe_ratio" then
    .ok (sharpe_ratio portfolio_returns risk_free_rate)
  else if metric = "tracking_error" then
    (tracking_error portfolio_returns benchmark_returns).mapError .valueError
  else if metric = "information_ratio" then
    (information_ratio portfolio_returns benchmark_returns).mapError .valueError
  else .error (.http 400 ("Unknown metric: " ++ metric))

/-- Embedding of the `/analytics` endpoint (`compute_analytics` in
`analytics_api/app/main.py`), with the data fetching abstracted into the
already-fetched return series.  The whole body runs inside
`try: … except Exception as e: raise HTTPException(500, str(e))`, and
`HTTPException` is itself a subclass of `Exception`, so every inner raise
— including the deliberate 400 for an unknown metric — is re-raised as a
500 whose detail is `str` of the inner exception. -/
noncomputable def compute_analytics (portfolio_name benchmark_name : Option String)
    (metrics : List String) (portfolio_returns benchmark_returns : List ℝ)
    (risk_free_rate : ℝ) :
    Except HttpError (Option String × Option String × List (String × ℝ)) :=
  match metrics.foldlM
    (fun acc metric =>
      (analyticsMetricValue metric portfolio_returns benchmark_returns
        risk_free_rate).map (fun v => acc ++ [(metric, v)]))
    ([] : List (String × ℝ)) with
  | .ok results => .ok (portfolio_name, benchmark_name, results)
  | .error e => .error ⟨500, pyExcStr e⟩

/-- Embedding of the `/compute` route of the formula service
(`compute_metric` in `formula_api/app/routes.py`), restricted to requests
whose inputs are the two return series (the shape used by
`tracking_error` and `information_ratio`): a metric name that is not an
attribute of the formulas module yields 404, an exception inside the
formula yields 400 with `str(e)`. -/
noncomputable def compute_metric (metric : String)
    (portfolio_returns benchmark_returns : List ℝ) : Except HttpError ℝ :=
  if metric = "tracking_error" then
    (tracking_error portfolio_returns benchmark_returns).mapError
      (fun e => ⟨400, e⟩)
  else if metric = "information_ratio" then
    (information_ratio portfolio_returns benchmark_returns).mapError
      (fun e => ⟨400, e⟩)
  else .error ⟨404, "Metric " ++ metric ++ " not implemented"⟩

/-- Modelled from the spec (§4.3, for comparison with the source): the
strict `YYYY-MM-DD` textual format — exactly four digits, a dash, exactly
two digits, a dash, exactly two digits. -/
def specStrictFormat (s : String) : Bool :=
  match splitDash s.data with
  | [ys, ms, ds] =>
    ys.length = 4 && allDigits ys && ms.length = 2 && allDigits ms &&
      ds.length = 2 && allDigits ds
  | _ => false

/-- Modelled from the spec (§8, Scenario 4, for comparison with the
source): the sample standard deviation of `n` observations with the
`n - 1` denominator, written over an indexed family. -/
noncomputable def sampleStdDev (n : ℕ) (r : Fin n → ℝ) : ℝ :=
  Real.sqrt ((∑ i, (r i - (∑ j, r j) / n) ^ 2) / (n - 1))

/-- Modelled from the spec (§4.7, for comparison with the source): the
claimed success rendering — Title Case metric names, values to six
decimals, sentences joined by `"; "`. -/
def specTitleCaseRender (rs : List (String × JsonVal)) : String :=
  String.intercalate "; " (rs.map (fun kv =>
    match kv with
    | (k, .num q) => pyTitle (replaceUnderscores k) ++ " is " ++ fixed6 q
    | (k, .str s) => pyTitle (replaceUnderscores k) ++ " is " ++ s))

/-- The amended success rendering: as `specTitleCaseRender` but with
Python `str.capitalize()` (only the first character uppercased) in place
of Title Case, matching the source. -/
def specCapitalizedRender (rs : List (String × JsonVal)) : String :=
  String.intercalate "; " (rs.map (fun kv =>
    match kv with
    | (k, .num q) => pyCapitalize (replaceUnderscores k) ++ " is " ++ fixed6 q
    | (k, .str s) => pyCapitalize (replaceUnderscores k) ++ " is " ++ s))

/-- Caller-visible view of a chat turn's outcome: the response text of a
normal turn, or the error detail of a crashed turn. -/
def respText : Except HttpError ChatResponse → String
  | .ok r => r.response
  | .error e => e.detail

/-- Caller-visible `reset_history` flag of a normal turn. -/
def respResetHistory : Except HttpError ChatResponse → Option Bool
  | .ok r => some r.reset_history
  | .error _ => none

/-- Caller-visible `parameters` field of a normal turn. -/
def respParameters : Except HttpError ChatResponse → Option (Option ParameterRecord)
  | .ok r => some r.parameters
  | .error _ => none

/-- A stub fuzzy matcher (returns no suggestions); the claims under
verification do not depend on the matcher's output. -/
def noFuzzy : String → List String → List String := fun _ _ => []

/-- Concrete fixture: a complete parameter record for a volatility request
(all required fields truthy, names drawn from the fallback catalogs). -/
def completeParams : ParameterRecord :=
  { portfolio_name := some "Growth Plus"
    benchmark_name := none
    risk_free_portfolio_name := none
    start_date := some "2023-01-15"
    end_date := some "2023-03-31"
    metrics := .val ["volatility"] }

/-- Concrete fixture: a backend reply carrying one volatility result. -/
def volJson : AnalyticsJson :=
  { portfolio := some "Growth Plus"
    benchmark := none
    results := [("volatility", .num (mkRat 1 100))] }

/-- Concrete fixture: a backend that always answers 200 with `volJson`. -/
def volBackend : QueryParams → BackendResp :=
  fun _ => { status_code := 200, json := volJson, text := "" }

/-- Concrete fixture: a complete record for a Sharpe-ratio request. -/
def sharpeParams : ParameterRecord :=
  { portfolio_name := some "Growth Plus"
    benchmark_name := none
    risk_free_portfolio_name := some "Secure Income"
    start_date := some "2023-01-31"
    end_date := some "2023-03-31"
    metrics := .val ["sharpe_ratio"] }

/-- Concrete fixture: a backend reply carrying one Sharpe-ratio result of
value one half. -/
def sharpeJson : AnalyticsJson :=
  { portfolio := some "Growth Plus"
    benchmark := none
    results := [("sharpe_ratio", .num (mkRat 1 2))] }

/-- Concrete fixture: a backend that always answers 200 with
`sharpeJson`. -/
def sharpeBackend : QueryParams → BackendResp :=
  fun _ => { status_code := 200, json := sharpeJson, text := "" }

/-- Concrete fixture: a complete record whose start date is not a valid
calendar date. -/
def invalidDateParams : ParameterRecord :=
  { completeParams with start_date := some "2023-13-01" }

/-- Concrete fixture: a complete record whose end date is not a valid
calendar date. -/
def invalidEndDateParams : ParameterRecord :=
  { completeParams with end_date := some "2023-02-30" }

/-- A 4xx-class HTTP status (a client error). -/
def clientError (c : Nat) : Prop := 400 ≤ c ∧ c < 500

lemma natDigitsAux_irrel (f₁ : Nat) : ∀ n f₂, n < f₁ → n < f₂ →
    natDigitsAux f₁ n = natDigitsAux f₂ n := by
  induction f₁ with
  | zero => intro n f₂ h; omega
  | succ f ih =>
    intro n f₂ h₁ h₂
    match f₂, h₂ with
    | f₂ + 1, _ =>
      show natDigitsAux (f + 1) n = natDigitsAux (f₂ + 1) n
      simp only [natDigitsAux]
      by_cases h10 : n < 10
      · simp [h10]
      · simp only [h10, if_false]
        have hd : n / 10 < n := Nat.div_lt_self (by omega) (by omega)
        rw [ih (n / 10) f₂ (by omega) (by omega)]

lemma natDigits_small {n : Nat} (h : n < 10) : natDigits n = [digitChar n] := by
  simp [natDigits, natDigitsAux, h]

lemma natDigits_step {n : Nat} (h : 10 ≤ n) :
    natDigits n = natDigits (n / 10) ++ [digitChar (n % 10)] := by
  have hd : n / 10 < n := Nat.div_lt_self (by omega) (by omega)
  simp only [natDigits, natDigitsAux, Nat.not_lt.mpr h, if_false]
  rw [natDigitsAux_irrel n (n / 10) (n / 10 + 1) (by omega) (by omega)]
  simp only [natDigitsAux]

lemma digitChar_toNat {k : Nat} (h : k < 10) : (digitChar k).toNat = 48 + k := by
  interval_cases k <;> decide

lemma digitChar_isDigit {k : Nat} (h : k < 10) : isDigitChar (digitChar k) = true := by
  interval_cases k <;> decide

lemma digitsVal_foldl (cs : List Char) : ∀ a : Nat,
    cs.foldl (fun a c => a * 10 + (c.toNat - 48)) a =
      a * 10 ^ cs.length + digitsVal cs := by
  induction cs with
  | nil => intro a; simp [digitsVal]
  | cons c cs ih =>
    intro a
    simp only [List.foldl_cons, List.length_cons]
    rw [ih]
    have h2 : digitsVal (c :: cs) = (c.toNat - 48) * 10 ^ cs.length + digitsVal cs := by
      show List.foldl _ _ (c :: cs) = _
      simp only [List.foldl_cons]
      rw [ih (0 * 10 + (c.toNat - 48))]
      norm_num
    rw [h2]
    ring

lemma digitsVal_append (a b : List Char) :
    digitsVal (a ++ b) = digitsVal a * 10 ^ b.length + digitsVal b := by
  simp only [digitsVal, List.foldl_append]
  rw [digitsVal_foldl b (List.foldl (fun a c => a * 10 + (c.toNat - 48)) 0 a)]
  rfl

lemma digitsVal_natDigits (n : Nat) : digitsVal (natDigits n) = n := by
  induction n using Nat.strong_induction_on with
  | _ n ih =>
    by_cases h : n < 10
    · rw [natDigits_small h]
      simp [digitsVal, digitChar_toNat h]
    · rw [natDigits_step (by omega), digitsVal_append,
        ih (n / 10) (Nat.div_lt_self (by omega) (by omega))]
      simp [digitsVal, digitChar_toNat (Nat.mod_lt n (by omega))]
      omega

lemma allDigits_natDigits (n : Nat) : allDigits (natDigits n) = true := by
  induction n using Nat.strong_induction_on with
  | _ n ih =>
    by_cases h : n < 10
    · rw [natDigits_small h]
      simp [allDigits, digitChar_isDigit h]
    · rw [natDigits_step (by omega)]
      have h1 := ih (n / 10) (Nat.div_lt_self (by omega) (by omega))
      simp only [allDigits, List.all_append, List.all_cons, List.all_nil] at *
      simp [h1, digitChar_isDigit (Nat.mod_lt n (by omega))]

lemma natDigits_length_of_lt {n : Nat} (h : n < 10) :
    (natDigits n).length = 1 := by
  rw [natDigits_small h]; rfl

lemma natDigits_length_two {n : Nat} (h1 : 10 ≤ n) (h2 : n ≤ 99) :
    (natDigits n).length = 2 := by
  rw [natDigits_step h1]
  have : n / 10 < 10 := by omega
  simp [natDigits_small this]

lemma natDigits_length_four {n : Nat} (h1 : 1000 ≤ n) (h2 : n ≤ 9999) :
    (natDigits n).length = 4 := by
  rw [natDigits_step (by omega)]
  rw [natDigits_step (show 10 ≤ n / 10 by omega)]
  rw [natDigits_step (show 10 ≤ n / 10 / 10 by omega)]
  have : n / 10 / 10 / 10 < 10 := by omega
  simp [natDigits_small this]

lemma digitsVal_lt (cs : List Char) (h : allDigits cs = true) :
    digitsVal cs < 10 ^ cs.length := by
  induction cs with
  | nil => simp [digitsVal]
  | cons c cs ih =>
    simp only [allDigits, List.all_cons, Bool.and_eq_true] at h
    have hc : c.toNat - 48 < 10 := by
      have := h.1
      simp only [isDigitChar, Bool.and_eq_true, decide_eq_true_eq] at this
      omega
    have ihh := ih h.2
    show digitsVal (c :: cs) < 10 ^ (cs.length + 1)
    have : digitsVal (c :: cs) = (c.toNat - 48) * 10 ^ cs.length + digitsVal cs := by
      have := digitsVal_append [c] cs
      simpa [digitsVal] using this
    rw [this]
    have : (c.toNat - 48) * 10 ^ cs.length ≤ 9 * 10 ^ cs.length :=
      Nat.mul_le_mul_right _ (by omega)
    calc (c.toNat - 48) * 10 ^ cs.length + digitsVal cs
        ≤ 9 * 10 ^ cs.length + digitsVal cs := by omega
      _ < 9 * 10 ^ cs.length + 10 ^ cs.length := by omega
      _ = 10 ^ (cs.length + 1) := by ring


lemma no_dash_of_allDigits {cs : List Char} (h : allDigits cs = true) :
    ∀ c ∈ cs, c ≠ '-' := by
  intro c hc he
  subst he
  have hd := List.all_eq_true.mp h _ hc
  simp only [isDigitChar, Bool.and_eq_true, decide_eq_true_eq] at hd
  have e : ('-' : Char).toNat = 45 := rfl
  omega

lemma splitDash_noDash (cs : List Char) (h : ∀ c ∈ cs, c ≠ '-') :
    splitDash cs = [cs] := by
  induction cs with
  | nil => rfl
  | cons c rest ih =>
    have hc : c ≠ '-' := h c (by simp)
    have hr := ih (fun x hx => h x (by simp [hx]))
    simp only [splitDash, if_neg hc, hr]

lemma splitDash_append (a b : List Char) (h : ∀ c ∈ a, c ≠ '-') :
    splitDash (a ++ '-' :: b) = a :: splitDash b := by
  induction a with
  | nil => simp [splitDash]
  | cons c rest ih =>
    have hc : c ≠ '-' := h c (by simp)
    have hr := ih (fun x hx => h x (by simp [hx]))
    simp only [List.cons_append, splitDash, if_neg hc, List.append_eq, hr]

lemma daysInMonth_bounds (y m : Nat) :
    28 ≤ daysInMonth y m ∧ daysInMonth y m ≤ 31 := by
  unfold daysInMonth
  split
  · split <;> omega
  · split <;> omega

lemma addDays_four (x : Nat × Nat × Nat) :
    addDays x 4 = nextDay (nextDay (nextDay (nextDay x))) := rfl

lemma subDays_one (x : Nat × Nat × Nat) : subDays x 1 = prevDay x := rfl

lemma subDays_two (x : Nat × Nat × Nat) :
    subDays x 2 = prevDay (prevDay x) := rfl

lemma subDays_three (x : Nat × Nat × Nat) :
    subDays x 3 = prevDay (prevDay (prevDay x)) := rfl

lemma subDays_four (x : Nat × Nat × Nat) :
    subDays x 4 = prevDay (prevDay (prevDay (prevDay x))) := rfl

lemma eom_correct {y m : Nat} (hm1 : 1 ≤ m) (hm2 : m ≤ 12) :
    subDays (addDays (y, m, 28) 4) (addDays (y, m, 28) 4).2.2 =
      (y, m, daysInMonth y m) := by
  interval_cases m <;>
    by_cases hl : leapYear y <;>
      simp [addDays_four, subDays_one, subDays_two, subDays_three, subDays_four,
        nextDay, prevDay, daysInMonth, hl]

lemma parseYMD_sound {s : String} {y m d : Nat}
    (h : parseYMD s = some (y, m, d)) :
    1 ≤ y ∧ y ≤ 9999 ∧ 1 ≤ m ∧ m ≤ 12 ∧ 1 ≤ d ∧ d ≤ daysInMonth y m := by
  unfold parseYMD at h
  split at h
  case h_2 => exact absurd h (by simp)
  case h_1 ys ms ds hsd =>
    split at h
    case isFalse => exact absurd h (by simp)
    case isTrue hfmt =>
      split at h
      case isFalse => exact absurd h (by simp)
      case isTrue hrange =>
        simp only [Option.some.injEq, Prod.mk.injEq] at h
        obtain ⟨hy, hm, hd⟩ := h
        subst hy hm hd
        have ybound : digitsVal ys < 10 ^ ys.length := digitsVal_lt _ hfmt.2.1
        rw [hfmt.1] at ybound
        norm_num at ybound
        exact ⟨hrange.1, by omega, hrange.2.1, hrange.2.2.1,
          hrange.2.2.2.1, hrange.2.2.2.2⟩

lemma pad2_spec {n : Nat} (h2 : n ≤ 99) :
    (pad2 n).length = 2 ∧ allDigits (pad2 n) = true ∧ digitsVal (pad2 n) = n := by
  by_cases h : n < 10
  · simp only [pad2, if_pos h]
    refine ⟨by simp [natDigits_length_of_lt h], ?_, ?_⟩
    · simp only [allDigits, List.all_cons, Bool.and_eq_true]
      exact ⟨by decide, allDigits_natDigits n⟩
    · have := digitsVal_append ['0'] (natDigits n)
      simp only [List.singleton_append] at this
      rw [this, digitsVal_natDigits, natDigits_length_of_lt h]
      have e0 : digitsVal ['0'] = 0 := rfl
      rw [e0]
      ring
  · simp only [pad2, if_neg h]
    exact ⟨natDigits_length_two (by omega) h2, allDigits_natDigits n,
      digitsVal_natDigits n⟩

lemma fmtDate_parse {y m d : Nat} (hy1 : 1000 ≤ y) (hy2 : y ≤ 9999)
    (hm1 : 1 ≤ m) (hm2 : m ≤ 12) (hd1 : 1 ≤ d) (hd2 : d ≤ daysInMonth y m) :
    parseYMD (fmtDate (y, m, d)) = some (y, m, d) := by
  have hb := daysInMonth_bounds y m
  have hd99 : d ≤ 99 := by omega
  have hm99 : m ≤ 99 := by omega
  obtain ⟨pmLen, pmDig, pmVal⟩ := pad2_spec hm99
  obtain ⟨pdLen, pdDig, pdVal⟩ := pad2_spec hd99
  have ayDig := allDigits_natDigits y
  have ayLen := natDigits_length_four hy1 hy2
  have ayVal := digitsVal_natDigits y
  have hsplit : splitDash ((fmtDate (y, m, d)).data) = [natDigits y, pad2 m, pad2 d] := by
    have e : (fmtDate (y, m, d)).data =
        natDigits y ++ '-' :: (pad2 m ++ '-' :: pad2 d) := by
      simp [fmtDate]
    rw [e, splitDash_append _ _ (no_dash_of_allDigits ayDig),
      splitDash_append _ _ (no_dash_of_allDigits pmDig),
      splitDash_noDash _ (no_dash_of_allDigits pdDig)]
  simp only [parseYMD, hsplit]
  rw [if_pos ⟨ayLen, ayDig, by omega, by omega, pmDig, by omega, by omega, pdDig⟩]
  rw [ayVal, pmVal, pdVal]
  rw [if_pos ⟨by omega, hm1, hm2, hd1, hd2⟩]

/-- Characterization of `validate_date`: on a string that fails to parse it
returns `none`; on a parsed `(y, m, d)` it returns the string unchanged
when `d` is already the last day of the month, and the formatted last day
of that month otherwise.  (The `replace(day=28) + 4 days − landing day`
trick always lands on the month's last day.) -/
lemma validate_date_eq (s : String) :
    validate_date s = match parseYMD s with
      | none => none
      | some (y, m, d) =>
        if d = daysInMonth y m then some s
        else some (fmtDate (y, m, daysInMonth y m)) := by
  cases hp : parseYMD s with
  | none => simp [validate_date, hp]
  | some t =>
    obtain ⟨y, m, d⟩ := t
    obtain ⟨hy1, hy2, hm1, hm2, hd1, hd2⟩ := parseYMD_sound hp
    simp only [validate_date, hp]
    rw [eom_correct hm1 hm2]
    by_cases hda : d = daysInMonth y m
    · subst hda
      simp
    · have hne : (y, m, d) ≠ (y, m, daysInMonth y m) := by
        simp [hda]
      simp [hne, hda]

/-- C5 (counterexample): the claim states that the normalizer parses a
strict `YYYY-MM-DD` date and returns Invalid on any other format; but the
source's `strptime` pattern accepts an unpadded month, so `"2023-1-15"` —
which is not in strict `YYYY-MM-DD` form — normalizes successfully instead
of failing. -/
theorem c5_strict_format_counterexample :
    specStrictFormat "2023-1-15" = false ∧
      validate_date "2023-1-15" = some "2023-01-31" :=
  ⟨by decide, by decide⟩

/-- C5 (amended): `validate_date` parses `%Y-%m-%d` the way CPython's
`strptime` does (exactly four year digits, one or two month and day
digits, calendar-valid) and returns Invalid on any other input; a valid
date that is not the last calendar day of its month is replaced by the
last day of that month, a date already at month end is returned unchanged;
and the spec's two examples hold. -/
theorem c5_normalizer_characterization :
    (∀ s, validate_date s = match parseYMD s with
      | none => none
      | some (y, m, d) =>
        if d = daysInMonth y m then some s
        else some (fmtDate (y, m, daysInMonth y m))) ∧
    validate_date "2023-01-15" = some "2023-01-31" ∧
    validate_date "2023-03-31" = some "2023-03-31" :=
  ⟨validate_date_eq, by decide, by decide⟩

/-- C6 (counterexample): date normalization is not idempotent on all
accepted inputs: `"0050-01-15"` is accepted (`strptime` matches the
four-digit year `0050`), but glibc `strftime` `%Y` formats the snapped
month end without leading zeros as `"50-01-31"`, which the normalizer then
rejects, so `normalize (normalize d)` is Invalid while `normalize d` is
not. -/
theorem c6_idempotence_counterexample :
    validate_date "0050-01-15" = some "50-01-31" ∧
      validate_date "50-01-31" = none :=
  ⟨by decide, by decide⟩

/-- C6 (amended): date normalization is idempotent on every accepted date
whose year is at least 1000 (so that the re-formatted year keeps four
digits), and on every accepted date that is already at its month end
(returned textually unchanged). -/
theorem c6_idempotent_amended (s : String) (y m d : Nat)
    (hp : parseYMD s = some (y, m, d))
    (hcond : 1000 ≤ y ∨ d = daysInMonth y m) :
    ∃ out, validate_date s = some out ∧ validate_date out = some out := by
  obtain ⟨hy1, hy2, hm1, hm2, hd1, hd2⟩ := parseYMD_sound hp
  have heq : validate_date s =
      if d = daysInMonth y m then some s
      else some (fmtDate (y, m, daysInMonth y m)) := by
    rw [validate_date_eq s, hp]
  by_cases hda : d = daysInMonth y m
  · rw [if_pos hda] at heq
    exact ⟨s, heq, heq⟩
  · rw [if_neg hda] at heq
    rcases hcond with hy1000 | hcontra
    · refine ⟨fmtDate (y, m, daysInMonth y m), heq, ?_⟩
      have hb := daysInMonth_bounds y m
      have hparse2 : parseYMD (fmtDate (y, m, daysInMonth y m)) =
          some (y, m, daysInMonth y m) :=
        fmtDate_parse hy1000 hy2 hm1 hm2 (by omega) (le_refl _)
      have heq2 : validate_date (fmtDate (y, m, daysInMonth y m)) =
          if daysInMonth y m = daysInMonth y m then
            some (fmtDate (y, m, daysInMonth y m))
          else some (fmtDate (y, m, daysInMonth y m)) := by
        rw [validate_date_eq (fmtDate (y, m, daysInMonth y m)), hparse2]
      rw [if_pos rfl] at heq2
      exact heq2
    · exact absurd hcontra hda

/-- Witness for C6's amended theorem at the concrete input
`"2023-01-15"`. -/
theorem c6_idempotent_amended_witness :
    parseYMD "2023-01-15" = some (2023, 1, 15) ∧
    (1000 ≤ 2023 ∨ 15 = daysInMonth 2023 1) ∧
    ∃ out, validate_date "2023-01-15" = some out ∧
      validate_date out = some out :=
  ⟨by decide, Or.inl (by omega),
    c6_idempotent_amended "2023-01-15" 2023 1 15 (by decide)
      (Or.inl (by omega))⟩

/-- C1 (code-bug evaluation): on a complete turn whose backend answers
200, the response composer returns the reset flag as `true`, but the
`/chat` endpoint then sets `reset_history = False` before building the
response, so the caller-visible `reset_history` is `false`, never
`true`. -/
theorem c1_reset_flag_masked :
    chatMissing completeParams FALLBACK_PORTFOLIOS FALLBACK_BENCHMARKS = .ok [] ∧
    (generate_response completeParams [] FALLBACK_PORTFOLIOS FALLBACK_BENCHMARKS
      noFuzzy volBackend).2.2 = true ∧
    respResetHistory
      (chat completeParams FALLBACK_PORTFOLIOS FALLBACK_BENCHMARKS
        noFuzzy volBackend) = some false :=
  ⟨by decide, by decide, by decide⟩

/-- C4 (code-bug evaluation): an extracted record whose `metrics` key is
an explicit JSON null (exactly what the extraction prompt instructs the
oracle to produce when no metric is mentioned) makes
`params.get("metrics", [])` return `None`, the iteration raise
`TypeError`, and the turn die with a 500 instead of producing the
missing-field set containing `"metrics"`. -/
theorem c4_null_metrics_crash :
    check_completeness { completeParams with metrics := .null } =
      .error "TypeError: NoneType object is not iterable" ∧
    chat { completeParams with metrics := .null } FALLBACK_PORTFOLIOS
      FALLBACK_BENCHMARKS noFuzzy volBackend =
      .error ⟨500, "Internal Server Error"⟩ :=
  ⟨by decide, by decide⟩

/-- C2 (counterexample): with an invalid start date on an otherwise
complete turn, the turn does not fail: the missing set is empty, the date
fails normalization, yet the composer returns the backend's results with
the success flag — the backend was invoked and the turn succeeded. -/
theorem c2_counterexample :
    chatMissing invalidDateParams FALLBACK_PORTFOLIOS FALLBACK_BENCHMARKS = .ok [] ∧
    validate_date "2023-13-01" = none ∧
    (generate_response invalidDateParams [] FALLBACK_PORTFOLIOS
      FALLBACK_BENCHMARKS noFuzzy volBackend).2.1 = some volJson ∧
    (generate_response invalidDateParams [] FALLBACK_PORTFOLIOS
      FALLBACK_BENCHMARKS noFuzzy volBackend).2.2 = true :=
  ⟨by decide, by decide, by decide, by decide⟩

/-- C2 (amended): when normalization of a truthy `start_date` or
`end_date` fails on a turn with an empty missing set, the failed field is
silently replaced by null, the query sent to the backend carries no such
date, and the turn's outcome is exactly the handling of the backend's
response to that query (no turn failure on account of the invalid
date). -/
theorem c2_invalid_date_dropped (p : ParameterRecord)
    (cat bench : List String) (fz : String → List String → List String)
    (bk : QueryParams → BackendResp) :
    (∀ s, p.start_date = some s → (s == "") = false → validate_date s = none →
      (buildQuery (normalizeDates p)).start_date = none) ∧
    (∀ s, p.end_date = some s → (s == "") = false → validate_date s = none →
      (buildQuery (normalizeDates p)).end_date = none) ∧
    generate_response p [] cat bench fz bk =
      (if (bk (buildQuery (normalizeDates p))).status_code = 200 then
        (successText (normalizeDates p),
          some (bk (buildQuery (normalizeDates p))).json, true)
      else ("Error computing analytics: " ++
        (bk (buildQuery (normalizeDates p))).text, none, false)) := by
  refine ⟨?_, ?_, rfl⟩
  · intro s hs hne hv
    have h1 : (normalizeDates p).start_date = none := by
      unfold normalizeDates
      rw [hs]
      simp only [pyTruthy, hne, Bool.not_false, if_true, Option.getD_some, hv]
      split <;> rfl
    simp [buildQuery, truthyOrNone, h1, pyTruthy]
  · intro s hs hne hv
    have h2 : (normalizeDates p).end_date = none := by
      unfold normalizeDates
      split
      · rw [show ({ p with
            start_date := validate_date (p.start_date.getD "") } :
              ParameterRecord).end_date = p.end_date from rfl, hs]
        simp only [pyTruthy, hne, Bool.not_false, if_true, Option.getD_some, hv]
      · dsimp only
        rw [hs]
        simp only [pyTruthy, hne, Bool.not_false, if_true, Option.getD_some, hv]
    simp [buildQuery, truthyOrNone, h2, pyTruthy]

/-- Witness for C2's amended theorem at the concrete invalid start date
`"2023-13-01"` and the concrete invalid end date `"2023-02-30"`. -/
theorem c2_invalid_date_dropped_witness :
    invalidDateParams.start_date = some "2023-13-01" ∧
    invalidEndDateParams.end_date = some "2023-02-30" ∧
    (buildQuery (normalizeDates invalidDateParams)).start_date = none ∧
    (buildQuery (normalizeDates invalidEndDateParams)).end_date = none ∧
    generate_response invalidDateParams [] FALLBACK_PORTFOLIOS
        FALLBACK_BENCHMARKS noFuzzy volBackend =
      (if (volBackend (buildQuery (normalizeDates invalidDateParams))).status_code
          = 200 then
        (successText (normalizeDates invalidDateParams),
          some (volBackend (buildQuery (normalizeDates invalidDateParams))).json,
          true)
      else ("Error computing analytics: " ++
        (volBackend (buildQuery (normalizeDates invalidDateParams))).text,
        none, false)) :=
  ⟨rfl, rfl,
    (c2_invalid_date_dropped invalidDateParams FALLBACK_PORTFOLIOS
      FALLBACK_BENCHMARKS noFuzzy volBackend).1 "2023-13-01" rfl (by decide)
      (by decide),
    (c2_invalid_date_dropped invalidEndDateParams FALLBACK_PORTFOLIOS
      FALLBACK_BENCHMARKS noFuzzy volBackend).2.1 "2023-02-30" rfl (by decide)
      (by decide),
    (c2_invalid_date_dropped invalidDateParams FALLBACK_PORTFOLIOS
      FALLBACK_BENCHMARKS noFuzzy volBackend).2.2⟩

/-- C3 (code-bug evaluation): a request naming the unknown metric `"xyz"`
hits the deliberate `HTTPException(400, "Unknown metric: xyz")`, but the
surrounding blanket `except Exception` handler re-raises it as a 500 whose
detail is the string of the inner exception; the caller receives a server
error, not a 4xx client error. -/
theorem c3_unknown_metric_becomes_500 :
    compute_analytics (some "Growth Plus") none ["xyz"]
      [(0.01 : ℝ), 0.02] [] 0 = .error ⟨500, "400: Unknown metric: xyz"⟩ ∧
    ¬ clientError 500 := by
  refine ⟨rfl, ?_⟩
  simp [clientError]

lemma list_map_sum_fin (f : ℝ → ℝ) :
    ∀ l : List ℝ, (l.map f).sum = ∑ i : Fin l.length, f (l.get i) := by
  intro l
  induction l with
  | nil => simp
  | cons a t ih =>
    rw [List.map_cons, List.sum_cons, ih]
    show _ = ∑ i : Fin (t.length + 1), f ((a :: t).get i)
    rw [Fin.sum_univ_succ]
    rfl

lemma list_sum_fin (l : List ℝ) : l.sum = ∑ i : Fin l.length, l.get i := by
  have h := list_map_sum_fin id l
  rw [List.map_id] at h
  exact h

/-- C7: the volatility formula equals the sample standard deviation with
the `n − 1` denominator, stated against an independent indexed-family
definition of the sample standard deviation. -/
theorem c7_volatility_is_sample_stddev (l : List ℝ) (h : 2 ≤ l.length) :
    volatility l = sampleStdDev l.length l.get := by
  unfold volatility sampleStdDev npMean
  rw [list_map_sum_fin, list_sum_fin]

/-- Witness for C7 at the spec's concrete series
`[0.01, 0.02, -0.01, 0.03]`. -/
theorem c7_volatility_is_sample_stddev_witness :
    2 ≤ ([0.01, 0.02, -0.01, 0.03] : List ℝ).length ∧
    volatility ([0.01, 0.02, -0.01, 0.03] : List ℝ) =
      sampleStdDev ([0.01, 0.02, -0.01, 0.03] : List ℝ).length
        ([0.01, 0.02, -0.01, 0.03] : List ℝ).get :=
  ⟨by decide, c7_volatility_is_sample_stddev _ (by decide)⟩

/-- C8 (counterexample): series of lengths 2 and 1 have different lengths,
yet `tracking_error` and `information_ratio` do not fail — numpy
broadcasts the singleton and both compute a value. -/
theorem c8_broadcast_counterexample :
    [(0.01 : ℝ), 0.02].length ≠ [(0.01 : ℝ)].length ∧
    (tracking_error [(0.01 : ℝ), 0.02] [(0.01 : ℝ)]).isOk = true ∧
    (information_ratio [(0.01 : ℝ), 0.02] [(0.01 : ℝ)]).isOk = true :=
  ⟨by decide, rfl, rfl⟩

/-- C8 (amended): for series of different lengths neither of which has
length one, `tracking_error` and `information_ratio` raise the numpy
broadcast error, surfaced by the formula route as a 400 computation
error (series of different lengths where one is a singleton are instead
broadcast, see the counterexample). -/
theorem c8_mismatch_is_error (p b : List ℝ) (hne : p.length ≠ b.length)
    (hp1 : p.length ≠ 1) (hb1 : b.length ≠ 1) :
    tracking_error p b = .error "operands could not be broadcast together" ∧
    information_ratio p b = .error "operands could not be broadcast together" ∧
    compute_metric "tracking_error" p b =
      .error ⟨400, "operands could not be broadcast together"⟩ ∧
    compute_metric "information_ratio" p b =
      .error ⟨400, "operands could not be broadcast together"⟩ := by
  have hsub : npBroadcastSub p b =
      .error "operands could not be broadcast together" := by
    unfold npBroadcastSub
    rw [if_neg hne, if_neg hb1, if_neg hp1]
  have hte : tracking_error p b =
      .error "operands could not be broadcast together" := by
    unfold tracking_error
    rw [hsub]
    rfl
  have hir : information_ratio p b =
      .error "operands could not be broadcast together" := by
    unfold information_ratio
    rw [hsub]
    rfl
  refine ⟨hte, hir, ?_, ?_⟩
  · unfold compute_metric
    rw [if_pos rfl, hte]
    rfl
  · unfold compute_metric
    rw [if_neg (by decide), if_pos rfl, hir]
    rfl

/-- Witness for C8's amended theorem at concrete series of lengths 3 and
2. -/
theorem c8_mismatch_is_error_witness :
    [(0.01 : ℝ), 0.02, 0.03].length ≠ [(0.01 : ℝ), 0.02].length ∧
    [(0.01 : ℝ), 0.02, 0.03].length ≠ 1 ∧
    [(0.01 : ℝ), 0.02].length ≠ 1 ∧
    tracking_error [(0.01 : ℝ), 0.02, 0.03] [(0.01 : ℝ), 0.02] =
      .error "operands could not be broadcast together" := by
  refine ⟨by decide, by decide, by decide, ?_⟩
  exact (c8_mismatch_is_error [(0.01 : ℝ), 0.02, 0.03] [(0.01 : ℝ), 0.02]
    (by decide) (by decide) (by decide)).1

lemma foldl_append_eq_map {α β : Type} (f : α → β) (l : List α) :
    ∀ acc : List β, l.foldl (fun acc x => acc ++ [f x]) acc = acc ++ l.map f := by
  induction l with
  | nil => intro acc; simp
  | cons a t ih => intro acc; simp [ih]

lemma specCapRender_map (rs : List (String × JsonVal)) :
    specCapitalizedRender rs =
      String.intercalate "; " (rs.map formatMetricPhrase) := by
  unfold specCapitalizedRender
  congr 1

/-- C9 (counterexample): the endpoint renders the key `sharpe_ratio` with
`str.capitalize()` as `"Sharpe ratio"`, not in Title Case
(`"Sharpe Ratio"`) as the claim states. -/
theorem c9_title_case_counterexample :
    respText (chat sharpeParams FALLBACK_PORTFOLIOS FALLBACK_BENCHMARKS
      noFuzzy sharpeBackend) = "Sharpe ratio is 0.500000" ∧
    specTitleCaseRender sharpeJson.results = "Sharpe Ratio is 0.500000" ∧
    respText (chat sharpeParams FALLBACK_PORTFOLIOS FALLBACK_BENCHMARKS
      noFuzzy sharpeBackend) ≠ specTitleCaseRender sharpeJson.results :=
  ⟨by decide, by decide, by decide⟩

/-- C9 (amended): on every successful computation the chat response text
renders each metric as `"<capitalize(name with underscores replaced)> is
<value to six decimals>"` (non-numeric values as-is), joined by `"; "` —
first-letter capitalization, not Title Case. -/
theorem c9_success_render_capitalized (p : ParameterRecord)
    (cat bench : List String) (fz : String → List String → List String)
    (bk : QueryParams → BackendResp) (missing : List String) (r : AnalyticsJson)
    (hm : chatMissing p cat bench = .ok missing)
    (hr : (generate_response p missing cat bench fz bk).2.1 = some r) :
    respText (chat p cat bench fz bk) = specCapitalizedRender r.results := by
  simp only [chat, hm, respText, hr]
  rw [foldl_append_eq_map formatMetricPhrase r.results [], specCapRender_map,
    List.nil_append]

/-- Witness for C9's amended theorem at the concrete Sharpe-ratio
fixture. -/
theorem c9_success_render_capitalized_witness :
    chatMissing sharpeParams FALLBACK_PORTFOLIOS FALLBACK_BENCHMARKS = .ok [] ∧
    (generate_response sharpeParams [] FALLBACK_PORTFOLIOS FALLBACK_BENCHMARKS
      noFuzzy sharpeBackend).2.1 = some sharpeJson ∧
    respText (chat sharpeParams FALLBACK_PORTFOLIOS FALLBACK_BENCHMARKS
      noFuzzy sharpeBackend) = specCapitalizedRender sharpeJson.results :=
  ⟨by decide, by decide,
    c9_success_render_capitalized sharpeParams FALLBACK_PORTFOLIOS
      FALLBACK_BENCHMARKS noFuzzy sharpeBackend [] sharpeJson (by decide)
      (by decide)⟩

/-- C10: on every turn that produces a response, the `parameters` field is
the extracted record exactly when the missing-field list is non-empty and
null when it is empty — the validated record used for computation is never
echoed back. -/
theorem c10_parameters_field (p : ParameterRecord) (cat bench : List String)
    (fz : String → List String → List String) (bk : QueryParams → BackendResp)
    (missing : List String) (hm : chatMissing p cat bench = .ok missing) :
    respParameters (chat p cat bench fz bk) =
      some (if missing.isEmpty then none else some p) := by
  simp only [chat, hm, respParameters]

/-- Witness for C10 at the complete-turn fixture (empty missing list). -/
theorem c10_parameters_field_witness :
    chatMissing completeParams FALLBACK_PORTFOLIOS FALLBACK_BENCHMARKS = .ok [] ∧
    respParameters (chat completeParams FALLBACK_PORTFOLIOS FALLBACK_BENCHMARKS
      noFuzzy volBackend) =
      some (if ([] : List String).isEmpty then none else some completeParams) :=
  ⟨by decide,
    c10_parameters_field completeParams FALLBACK_PORTFOLIOS FALLBACK_BENCHMARKS
      noFuzzy volBackend [] (by decide)⟩

end InvestAgent

